import Mathlib

/-
  Shallow embedding of the ai-search dispatch core:
  - Result (src/src/domain/result.ts)
  - CommandBus (src/src/application/command-bus.ts, bundled in container.ts)
  - QueryBus (src/src/application/query-bus.ts, bundled in search-command.ts)
  - Container (src/src/infrastructure/container.ts)
  - exaSearch gateway (src/src/infrastructure/exa-service.ts)
  - SearchCommandHandler (src/src/application/commands/search-command-handler.ts)

  JavaScript `undefined` is modelled as `Option.none`; a thrown exception is
  modelled as the `Except.error` branch (for functions whose only throw sites
  are `new Error(message)`), or as the `Thrown` type where arbitrary values
  can be thrown; promise resolution/rejection collapses to the same
  return/throw distinction after `await`.
-/

namespace AiSearch

/-- Substring containment on strings, stated on the underlying character
lists: `sub` occurs contiguously inside `s`. -/
def strContains (sub s : String) : Prop :=
  ∃ pre post : List Char, pre ++ sub.data ++ post = s.data

/-- `Result<T>` from result.ts: success flag, an optional value (absent on
failure, and possibly `undefined` even on success, since `ok` takes an
optional argument), and an optional error message. -/
structure Result (α : Type) where
  _isSuccess : Bool
  _value : Option α
  _error : Option String
deriving DecidableEq

/-- `Result.ok(value?)`: success with an optional value (none ≙ undefined). -/
def Result.ok {α : Type} (value : Option α) : Result α :=
  ⟨true, value, none⟩

/-- `Result.fail(error)`: failure carrying a message. -/
def Result.fail {α : Type} (error : String) : Result α :=
  ⟨false, none, some error⟩

/-- The `isSuccess` getter. -/
def Result.isSuccess {α : Type} (r : Result α) : Bool :=
  r._isSuccess

/-- The `isFailure` getter: `!this._isSuccess`. -/
def Result.isFailure {α : Type} (r : Result α) : Bool :=
  !r._isSuccess

/-- The `value` getter: throws on a failure Result, otherwise returns
`this._value as T` (which may be undefined, hence `Option α`). -/
def Result.value {α : Type} (r : Result α) : Except String (Option α) :=
  if r._isSuccess then Except.ok r._value
  else Except.error "Cannot get value from failed result"

/-- The `error` getter: throws on a success Result, otherwise returns
`this._error as string`. -/
def Result.error {α : Type} (r : Result α) : Except String (Option String) :=
  if r._isSuccess then Except.error "Cannot get error from successful result"
  else Except.ok r._error

/-- A value thrown by a handler: either a JS `Error` instance carrying a
message, or any non-`Error` value (the `error instanceof Error` test in the
catch blocks distinguishes exactly these two cases). -/
inductive Thrown where
  | jsError (msg : String)
  | nonError
deriving DecidableEq

/-- The message a catch block extracts:
`error instanceof Error ? error.message : "Unknown error"`. -/
def Thrown.caughtMessage : Thrown → String
  | .jsError m => m
  | .nonError => "Unknown error"

/-- Outcome of `await handler.handle(x)`: either a normally resolved
`Result`, or a thrown/rejected value. -/
inductive HandlerOutcome (β : Type) where
  | returns (r : Result β)
  | throws (t : Thrown)

/-- `CommandBus` from command-bus.ts: a map from command name to handler.
Handlers are identified by elements of `ι`; their behaviour is supplied to
`execute` as a semantics function, mirroring the dynamic dispatch to
`handler.handle`. -/
structure CommandBus (ι : Type) where
  handlers : String → Option ι

/-- A fresh `new CommandBus()`: the empty `Map`. -/
def CommandBus.new (ι : Type) : CommandBus ι :=
  ⟨fun _ => none⟩

/-- `CommandBus.register`: `this.handlers.set(commandName, handler)` —
last write wins. -/
def CommandBus.register {ι : Type} (b : CommandBus ι) (commandName : String)
    (handler : ι) : CommandBus ι :=
  ⟨fun n => if n = commandName then some handler else b.handlers n⟩

/-- `CommandBus.execute`: looks up the handler; if absent, fails with the
no-handler message; otherwise awaits the handler inside try/catch. Returns
the Result, the list of handlers invoked during the call, and the bus state
after the call (the body never writes `this.handlers`). -/
def CommandBus.execute {ι α β : Type} (sem : ι → α → HandlerOutcome β)
    (b : CommandBus ι) (commandName : String) (command : α) :
    Result β × List ι × CommandBus ι :=
  match b.handlers commandName with
  | none => (Result.fail ("No handler registered for command: " ++ commandName), [], b)
  | some h =>
    match sem h command with
    | .returns r => (r, [h], b)
    | .throws t =>
      (Result.fail ("Error executing command: " ++ t.caughtMessage), [h], b)

/-- `QueryBus` from query-bus.ts: identical mechanism to `CommandBus`, with
the word "query" in its messages. -/
structure QueryBus (ι : Type) where
  handlers : String → Option ι

/-- A fresh `new QueryBus()`: the empty `Map`. -/
def QueryBus.new (ι : Type) : QueryBus ι :=
  ⟨fun _ => none⟩

/-- `QueryBus.register`: `this.handlers.set(queryName, handler)`. -/
def QueryBus.register {ι : Type} (b : QueryBus ι) (queryName : String)
    (handler : ι) : QueryBus ι :=
  ⟨fun n => if n = queryName then some handler else b.handlers n⟩

/-- `QueryBus.execute`: same shape as `CommandBus.execute` with the word
"query" in both failure messages. -/
def QueryBus.execute {ι α β : Type} (sem : ι → α → HandlerOutcome β)
    (b : QueryBus ι) (queryName : String) (query : α) :
    Result β × List ι × QueryBus ι :=
  match b.handlers queryName with
  | none => (Result.fail ("No handler registered for query: " ++ queryName), [], b)
  | some h =>
    match sem h query with
    | .returns r => (r, [h], b)
    | .throws t =>
      (Result.fail ("Error executing query: " ++ t.caughtMessage), [h], b)

/-- `SearchMode` from exa-types.ts: the two-valued mode selector. -/
inductive SearchMode where
  | search
  | research
deriving DecidableEq

/-- The `contents` object of the outbound request body. `highlights` and
`summary` are `Option Bool`: `none` models `undefined`, which
`JSON.stringify` omits from the serialized body. -/
structure ExaContents where
  text : Bool
  highlights : Option Bool
  summary : Option Bool
deriving DecidableEq

/-- The outbound JSON body built inside `exaSearch`. -/
structure ExaRequestBody where
  query : String
  type : String
  numResults : Nat
  contents : ExaContents
deriving DecidableEq

/-- The body construction in exa-service.ts lines 36-46:
`isResearch = mode === "research"`, then the two literal shape variants. -/
def exaRequestBody (query : String) (mode : SearchMode) : ExaRequestBody :=
  let isResearch : Bool := match mode with
    | .research => true
    | .search => false
  ⟨query,
   if isResearch then "deep" else "auto",
   if isResearch then 20 else 10,
   ⟨true,
    if isResearch then some true else none,
    if isResearch then some true else none⟩⟩

/-- `getApiKey` from exa-service.ts: reads the env var (modelled as an
`Option String`; `none` ≙ unset) and throws when the key is falsy — absent
or the empty string. -/
def getApiKey (env : Option String) : Except String String :=
  match env with
  | none =>
    Except.error "Exa API key not configured. Set VITE_EXA_API_KEY in your .env file."
  | some key =>
    if key = "" then
      Except.error "Exa API key not configured. Set VITE_EXA_API_KEY in your .env file."
    else Except.ok key

/-- A fetch `Response`: numeric status, the text read by `res.text()` and
the JSON payload read by `res.json()` (opaque type `ρ`). -/
structure HttpResponse (ρ : Type) where
  status : Nat
  bodyText : String
  json : ρ

/-- The `res.ok` accessor of fetch: status in the range 200-299. -/
def HttpResponse.isOk {ρ : Type} (r : HttpResponse ρ) : Bool :=
  200 ≤ r.status && r.status ≤ 299

/-- `exaSearch` from exa-service.ts: resolve the API key (throwing before
any request when it is missing), build the body, POST it (the network is
modelled as a function from the request body to the response), and either
return the JSON payload or throw the status/body error. The second
component records the request actually sent: `none` when no HTTP request
was made. -/
def exaSearch {ρ : Type} (env : Option String) (query : String)
    (mode : SearchMode) (net : ExaRequestBody → HttpResponse ρ) :
    Except String ρ × Option ExaRequestBody :=
  match getApiKey env with
  | .error m => (Except.error m, none)
  | .ok _ =>
    let body := exaRequestBody query mode
    let res := net body
    if res.isOk then (Except.ok res.json, some body)
    else
      (Except.error
        ("Exa API error (" ++ toString res.status ++ "): " ++ res.bodyText),
       some body)

/-- `SearchCommand` from search-command.ts: BaseCommand fields plus query
and mode. -/
structure SearchCommand where
  timestamp : Nat
  commandId : String
  query : String
  mode : SearchMode

/-- `SearchCommandHandler.handle`: calls `exaSearch` inside try/catch,
wraps a normal response in `Result.ok` and any thrown error in
`Result.fail("Search failed: " + message)` (every throw site inside
`exaSearch` throws an `Error` instance, so the caught message is the
message of the thrown error). -/
def SearchCommandHandler.handle {ρ : Type} (env : Option String)
    (net : ExaRequestBody → HttpResponse ρ) (command : SearchCommand) :
    Result ρ :=
  match (exaSearch env command.query command.mode net).1 with
  | .ok response => Result.ok (some response)
  | .error m => Result.fail ("Search failed: " ++ m)

/-- Identities of the two concrete handlers the Container registers. -/
inductive HandlerId where
  | searchCommandHandler
  | getSearchResultsQueryHandler
deriving DecidableEq

/-- The private `Container` constructor: creates the two buses and calls
`registerHandlers`, which registers the two concrete handlers. The process
environment (where the API key would live) is passed in to show the
constructor never reads it. -/
structure Container where
  _commandBus : CommandBus HandlerId
  _queryBus : QueryBus HandlerId

/-- `new Container()`: fresh buses, then `registerHandlers()`. The `_env`
argument models the process environment at construction time; no field of
the result depends on it — the API key is not read here. -/
def Container.new (_env : Option String) : Container :=
  ⟨(CommandBus.new HandlerId).register "SearchCommand"
     HandlerId.searchCommandHandler,
   (QueryBus.new HandlerId).register "GetSearchResultsQuery"
     HandlerId.getSearchResultsQueryHandler⟩

theorem strData_append (s t : String) : (s ++ t).data = s.data ++ t.data :=
  rfl

theorem strContains_refl (s : String) : strContains s s :=
  ⟨[], [], by simp⟩

theorem strContains_left {sub s : String} (t : String)
    (h : strContains sub s) : strContains sub (s ++ t) := by
  obtain ⟨p, q, hpq⟩ := h
  exact ⟨p, q ++ t.data, by rw [strData_append, ← hpq]; simp⟩

theorem strContains_right {sub t : String} (s : String)
    (h : strContains sub t) : strContains sub (s ++ t) := by
  obtain ⟨p, q, hpq⟩ := h
  exact ⟨s.data ++ p, q, by rw [strData_append, ← hpq]; simp⟩

theorem strContains_suffix (pre sub : String) : strContains sub (pre ++ sub) :=
  strContains_right pre (strContains_refl sub)

/-- C1: if the handler registered under `n` throws (synchronously or by
rejecting), `execute` on either bus neither throws nor rejects (it is a
total function into `Result`): it returns a failure Result whose message is
the caught message prefixed with "Error executing command/query: ", and
whenever the thrown value is an `Error` carrying message `m`, the failure
message contains `m`. -/
theorem dispatcher_exception_containment {ι α β : Type}
    (sem : ι → α → HandlerOutcome β) (b : CommandBus ι) (qb : QueryBus ι)
    (n : String) (h : ι) (x : α) (t : Thrown)
    (hb : b.handlers n = some h) (hq : qb.handlers n = some h)
    (ht : sem h x = .throws t) :
    ((CommandBus.execute sem b n x).1 =
        Result.fail ("Error executing command: " ++ t.caughtMessage)
      ∧ ∀ m, t = .jsError m →
          strContains m ("Error executing command: " ++ t.caughtMessage))
    ∧ ((QueryBus.execute sem qb n x).1 =
        Result.fail ("Error executing query: " ++ t.caughtMessage)
      ∧ ∀ m, t = .jsError m →
          strContains m ("Error executing query: " ++ t.caughtMessage)) := by
  refine ⟨⟨?_, ?_⟩, ?_, ?_⟩
  · simp [CommandBus.execute, hb, ht]
  · rintro m rfl
    exact strContains_suffix "Error executing command: " m
  · simp [QueryBus.execute, hq, ht]
  · rintro m rfl
    exact strContains_suffix "Error executing query: " m

/-- C1 witness: a concrete bus pair with a handler registered under "X"
whose semantics throws `Error("boom")`. -/
theorem dispatcher_exception_containment_witness :
    (((CommandBus.new Nat).register "X" 0).handlers "X" = some 0
      ∧ ((QueryBus.new Nat).register "X" 0).handlers "X" = some 0)
    ∧ ((CommandBus.execute
          (fun (_ : Nat) (_ : Nat) => HandlerOutcome.throws (β := Nat) (Thrown.jsError "boom"))
          ((CommandBus.new Nat).register "X" 0) "X" 0).1 =
        Result.fail ("Error executing command: " ++ (Thrown.jsError "boom").caughtMessage)
      ∧ ∀ m, Thrown.jsError "boom" = .jsError m →
          strContains m ("Error executing command: " ++ (Thrown.jsError "boom").caughtMessage))
    ∧ ((QueryBus.execute
          (fun (_ : Nat) (_ : Nat) => HandlerOutcome.throws (β := Nat) (Thrown.jsError "boom"))
          ((QueryBus.new Nat).register "X" 0) "X" 0).1 =
        Result.fail ("Error executing query: " ++ (Thrown.jsError "boom").caughtMessage)
      ∧ ∀ m, Thrown.jsError "boom" = .jsError m →
          strContains m ("Error executing query: " ++ (Thrown.jsError "boom").caughtMessage)) :=
  ⟨⟨by decide, by decide⟩,
    dispatcher_exception_containment
      (fun (_ : Nat) (_ : Nat) => HandlerOutcome.throws (Thrown.jsError "boom"))
      ((CommandBus.new Nat).register "X" 0) ((QueryBus.new Nat).register "X" 0)
      "X" 0 0 (Thrown.jsError "boom") (by decide) (by decide) rfl⟩

/-- C2: when no handler is registered under `n` on a bus (whatever is
registered under other names), `execute` returns a failure Result with the
no-handler message, which contains the literal name `n`, and invokes no
handler (empty invocation trace); the registry is untouched. -/
theorem dispatcher_unknown_name {ι α β : Type}
    (sem : ι → α → HandlerOutcome β) (b : CommandBus ι) (qb : QueryBus ι)
    (n : String) (x : α)
    (hb : b.handlers n = none) (hq : qb.handlers n = none) :
    (CommandBus.execute sem b n x =
        (Result.fail ("No handler registered for command: " ++ n), [], b)
      ∧ strContains n ("No handler registered for command: " ++ n))
    ∧ (QueryBus.execute sem qb n x =
        (Result.fail ("No handler registered for query: " ++ n), [], qb)
      ∧ strContains n ("No handler registered for query: " ++ n)) := by
  refine ⟨⟨?_, strContains_suffix "No handler registered for command: " n⟩,
    ?_, strContains_suffix "No handler registered for query: " n⟩
  · simp [CommandBus.execute, hb]
  · simp [QueryBus.execute, hq]

/-- C2 witness: buses with a handler registered under "Other" but none
under "nonexistent-name". -/
theorem dispatcher_unknown_name_witness :
    (((CommandBus.new Nat).register "Other" 7).handlers "nonexistent-name" = none
      ∧ ((QueryBus.new Nat).register "Other" 7).handlers "nonexistent-name" = none)
    ∧ (CommandBus.execute
          (fun (_ : Nat) (_ : Nat) => HandlerOutcome.returns (Result.ok (some 1)))
          ((CommandBus.new Nat).register "Other" 7) "nonexistent-name" 0 =
        (Result.fail ("No handler registered for command: " ++ "nonexistent-name"),
          [], ((CommandBus.new Nat).register "Other" 7))
      ∧ strContains "nonexistent-name"
          ("No handler registered for command: " ++ "nonexistent-name"))
    ∧ (QueryBus.execute
          (fun (_ : Nat) (_ : Nat) => HandlerOutcome.returns (Result.ok (some 1)))
          ((QueryBus.new Nat).register "Other" 7) "nonexistent-name" 0 =
        (Result.fail ("No handler registered for query: " ++ "nonexistent-name"),
          [], ((QueryBus.new Nat).register "Other" 7))
      ∧ strContains "nonexistent-name"
          ("No handler registered for query: " ++ "nonexistent-name")) :=
  ⟨⟨by decide, by decide⟩,
    dispatcher_unknown_name
      (fun (_ : Nat) (_ : Nat) => HandlerOutcome.returns (Result.ok (some 1)))
      ((CommandBus.new Nat).register "Other" 7)
      ((QueryBus.new Nat).register "Other" 7)
      "nonexistent-name" 0 (by decide) (by decide)⟩

/-- C3: when the handler registered under `n` resolves normally to a Result
`r` (success or failure alike), `execute` on either bus returns exactly
`r`, invoking exactly that handler and leaving the registry unchanged. -/
theorem dispatcher_happy_path {ι α β : Type}
    (sem : ι → α → HandlerOutcome β) (b : CommandBus ι) (qb : QueryBus ι)
    (n : String) (h : ι) (x : α) (r : Result β)
    (hb : b.handlers n = some h) (hq : qb.handlers n = some h)
    (hr : sem h x = .returns r) :
    CommandBus.execute sem b n x = (r, [h], b)
    ∧ QueryBus.execute sem qb n x = (r, [h], qb) := by
  constructor
  · simp [CommandBus.execute, hb, hr]
  · simp [QueryBus.execute, hq, hr]

/-- C3 witness: a handler returning a failure Result is passed through
unchanged (the stronger of the two passthrough cases). -/
theorem dispatcher_happy_path_witness :
    (((CommandBus.new Nat).register "X" 0).handlers "X" = some 0
      ∧ ((QueryBus.new Nat).register "X" 0).handlers "X" = some 0)
    ∧ (CommandBus.execute
          (fun (_ : Nat) (_ : Nat) =>
            HandlerOutcome.returns (Result.fail (α := Nat) "handler chose to fail"))
          ((CommandBus.new Nat).register "X" 0) "X" 5 =
        (Result.fail "handler chose to fail", [0], (CommandBus.new Nat).register "X" 0))
    ∧ (QueryBus.execute
          (fun (_ : Nat) (_ : Nat) =>
            HandlerOutcome.returns (Result.fail (α := Nat) "handler chose to fail"))
          ((QueryBus.new Nat).register "X" 0) "X" 5 =
        (Result.fail "handler chose to fail", [0], (QueryBus.new Nat).register "X" 0)) :=
  ⟨⟨by decide, by decide⟩,
    dispatcher_happy_path
      (fun (_ : Nat) (_ : Nat) =>
        HandlerOutcome.returns (Result.fail "handler chose to fail"))
      ((CommandBus.new Nat).register "X" 0) ((QueryBus.new Nat).register "X" 0)
      "X" 0 5 (Result.fail "handler chose to fail") (by decide) (by decide) rfl⟩

/-- C4: every Result built by the two factories has exactly one of
`isSuccess`/`isFailure` true; the `value` getter on a failure and the
`error` getter on a success both throw an invalid-state error instead of
silently returning undefined. -/
theorem result_exclusivity {α : Type} (v : Option α) (e : String) :
    ((Result.ok v).isSuccess = true ∧ (Result.ok v).isFailure = false)
    ∧ ((Result.fail e : Result α).isSuccess = false
      ∧ (Result.fail e : Result α).isFailure = true)
    ∧ (Result.fail e : Result α).value =
        Except.error "Cannot get value from failed result"
    ∧ (Result.ok v).error =
        Except.error "Cannot get error from successful result" :=
  ⟨⟨rfl, rfl⟩, ⟨rfl, rfl⟩, rfl, rfl⟩

/-- C5: the outbound request body for mode "search" has type "auto",
numResults 10, contents.text true and leaves highlights/summary unset
(undefined, dropped by JSON.stringify); for mode "research" it has type
"deep", numResults 20 and text, highlights and summary all true. -/
theorem search_mode_mapping (q : String) :
    exaRequestBody q SearchMode.search = ⟨q, "auto", 10, ⟨true, none, none⟩⟩
    ∧ exaRequestBody q SearchMode.research =
        ⟨q, "deep", 20, ⟨true, some true, some true⟩⟩ :=
  ⟨rfl, rfl⟩

/-- C6: whenever the API key resolves and the endpoint answers with a
non-2xx status, the Search Handler resolves (it is a total function — no
exception escapes) to a failure Result whose message contains both the
numeric status code and the raw response body text. -/
theorem non2xx_propagation {ρ : Type} (env : Option String) (k : String)
    (net : ExaRequestBody → HttpResponse ρ) (cmd : SearchCommand)
    (hk : getApiKey env = Except.ok k)
    (hres : (net (exaRequestBody cmd.query cmd.mode)).isOk = false) :
    SearchCommandHandler.handle env net cmd =
      Result.fail ("Search failed: " ++
        ("Exa API error (" ++ toString (net (exaRequestBody cmd.query cmd.mode)).status
          ++ "): " ++ (net (exaRequestBody cmd.query cmd.mode)).bodyText))
    ∧ strContains (toString (net (exaRequestBody cmd.query cmd.mode)).status)
        ("Search failed: " ++
          ("Exa API error (" ++ toString (net (exaRequestBody cmd.query cmd.mode)).status
            ++ "): " ++ (net (exaRequestBody cmd.query cmd.mode)).bodyText))
    ∧ strContains (net (exaRequestBody cmd.query cmd.mode)).bodyText
        ("Search failed: " ++
          ("Exa API error (" ++ toString (net (exaRequestBody cmd.query cmd.mode)).status
            ++ "): " ++ (net (exaRequestBody cmd.query cmd.mode)).bodyText)) := by
  refine ⟨?_, ?_, ?_⟩
  · simp [SearchCommandHandler.handle, exaSearch, hk, hres]
  · exact strContains_right "Search failed: "
      (strContains_left (net (exaRequestBody cmd.query cmd.mode)).bodyText
        (strContains_left "): "
          (strContains_suffix "Exa API error ("
            (toString (net (exaRequestBody cmd.query cmd.mode)).status))))
  · exact strContains_right "Search failed: "
      (strContains_right
        ("Exa API error (" ++ toString (net (exaRequestBody cmd.query cmd.mode)).status
          ++ "): ")
        (strContains_refl (net (exaRequestBody cmd.query cmd.mode)).bodyText))

/-- C6 witness: a 500 response with body "rate limited" yields
`Result.fail` containing "500" and "rate limited". -/
theorem non2xx_propagation_witness :
    (getApiKey (some "key123") = Except.ok "key123"
      ∧ (HttpResponse.mk 500 "rate limited" (0 : Nat)).isOk = false)
    ∧ (SearchCommandHandler.handle (some "key123")
          (fun _ => HttpResponse.mk 500 "rate limited" (0 : Nat))
          ⟨0, "cmd-1", "rust vs go", SearchMode.search⟩ =
        Result.fail ("Search failed: " ++
          ("Exa API error (" ++ toString (500 : Nat) ++ "): " ++ "rate limited"))
      ∧ strContains (toString (500 : Nat))
          ("Search failed: " ++
            ("Exa API error (" ++ toString (500 : Nat) ++ "): " ++ "rate limited"))
      ∧ strContains "rate limited"
          ("Search failed: " ++
            ("Exa API error (" ++ toString (500 : Nat) ++ "): " ++ "rate limited"))) :=
  ⟨⟨rfl, by decide⟩,
    non2xx_propagation (some "key123") "key123"
      (fun _ => HttpResponse.mk 500 "rate limited" (0 : Nat))
      ⟨0, "cmd-1", "rust vs go", SearchMode.search⟩ rfl (by decide)⟩

/-- C7: constructing the Container (with both handlers registered) does not
read the API key — the result is the same whatever the environment holds —
while every `exaSearch` call with the key absent (or empty, which the falsy
check also rejects) throws the configuration error before any HTTP request
is made (the request component is `none`). -/
theorem config_error_at_call_time {ρ : Type} (env : Option String)
    (henv : env = none ∨ env = some "") :
    (∀ e1 e2 : Option String, Container.new e1 = Container.new e2)
    ∧ (Container.new env)._commandBus.handlers "SearchCommand" =
        some HandlerId.searchCommandHandler
    ∧ (Container.new env)._queryBus.handlers "GetSearchResultsQuery" =
        some HandlerId.getSearchResultsQueryHandler
    ∧ ∀ (q : String) (mode : SearchMode) (net : ExaRequestBody → HttpResponse ρ),
        exaSearch env q mode net =
          (Except.error
            "Exa API key not configured. Set VITE_EXA_API_KEY in your .env file.",
            none) := by
  refine ⟨fun _ _ => rfl, by simp [Container.new, CommandBus.register],
    by simp [Container.new, QueryBus.register], fun q mode net => ?_⟩
  rcases henv with rfl | rfl
  · simp [exaSearch, getApiKey]
  · simp [exaSearch, getApiKey]

/-- C7 witness: an unset environment. -/
theorem config_error_at_call_time_witness :
    ((none : Option String) = none ∨ (none : Option String) = some "")
    ∧ ((∀ e1 e2 : Option String, Container.new e1 = Container.new e2)
      ∧ (Container.new none)._commandBus.handlers "SearchCommand" =
          some HandlerId.searchCommandHandler
      ∧ (Container.new none)._queryBus.handlers "GetSearchResultsQuery" =
          some HandlerId.getSearchResultsQueryHandler
      ∧ ∀ (q : String) (mode : SearchMode)
          (net : ExaRequestBody → HttpResponse Unit),
          exaSearch none q mode net =
            (Except.error
              "Exa API key not configured. Set VITE_EXA_API_KEY in your .env file.",
              none)) :=
  ⟨Or.inl rfl, config_error_at_call_time none (Or.inl rfl)⟩

/-- C8: registering h2 under a name already bound to h1 silently replaces
the binding (the Option-valued registry holds at most one handler per
name), and every subsequent execute under that name invokes exactly h2 and
never h1. -/
theorem registration_overwrite {ι α β : Type} (sem : ι → α → HandlerOutcome β)
    (b : CommandBus ι) (qb : QueryBus ι) (n : String) (h1 h2 : ι) (x : α)
    (hne : h1 ≠ h2) :
    (((b.register n h1).register n h2).handlers n = some h2
      ∧ (CommandBus.execute sem ((b.register n h1).register n h2) n x).2.1 = [h2]
      ∧ h1 ∉ (CommandBus.execute sem ((b.register n h1).register n h2) n x).2.1)
    ∧ (((qb.register n h1).register n h2).handlers n = some h2
      ∧ (QueryBus.execute sem ((qb.register n h1).register n h2) n x).2.1 = [h2]
      ∧ h1 ∉ (QueryBus.execute sem ((qb.register n h1).register n h2) n x).2.1) := by
  have hc : ((b.register n h1).register n h2).handlers n = some h2 := by
    simp [CommandBus.register]
  have hq2 : ((qb.register n h1).register n h2).handlers n = some h2 := by
    simp [QueryBus.register]
  have hex : (CommandBus.execute sem ((b.register n h1).register n h2) n x).2.1
      = [h2] := by
    rcases hsem : sem h2 x with r | t <;> simp [CommandBus.execute, hc, hsem]
  have hex2 : (QueryBus.execute sem ((qb.register n h1).register n h2) n x).2.1
      = [h2] := by
    rcases hsem : sem h2 x with r | t <;> simp [QueryBus.execute, hq2, hsem]
  exact ⟨⟨hc, hex, by simp [hex, hne]⟩, hq2, hex2, by simp [hex2, hne]⟩

/-- C8 witness: two distinct handlers successively registered under "X". -/
theorem registration_overwrite_witness :
    (0 : Nat) ≠ 1
    ∧ (((((CommandBus.new Nat).register "X" 0).register "X" 1).handlers "X" = some 1
        ∧ (CommandBus.execute
            (fun (_ : Nat) (_ : Nat) => HandlerOutcome.returns (Result.ok (some 9)))
            (((CommandBus.new Nat).register "X" 0).register "X" 1) "X" 0).2.1 = [1]
        ∧ (0 : Nat) ∉ (CommandBus.execute
            (fun (_ : Nat) (_ : Nat) => HandlerOutcome.returns (Result.ok (some 9)))
            (((CommandBus.new Nat).register "X" 0).register "X" 1) "X" 0).2.1)
      ∧ ((((QueryBus.new Nat).register "X" 0).register "X" 1).handlers "X" = some 1
        ∧ (QueryBus.execute
            (fun (_ : Nat) (_ : Nat) => HandlerOutcome.returns (Result.ok (some 9)))
            (((QueryBus.new Nat).register "X" 0).register "X" 1) "X" 0).2.1 = [1]
        ∧ (0 : Nat) ∉ (QueryBus.execute
            (fun (_ : Nat) (_ : Nat) => HandlerOutcome.returns (Result.ok (some 9)))
            (((QueryBus.new Nat).register "X" 0).register "X" 1) "X" 0).2.1)) :=
  ⟨by decide,
    registration_overwrite
      (fun (_ : Nat) (_ : Nat) => HandlerOutcome.returns (Result.ok (some 9)))
      (CommandBus.new Nat) (QueryBus.new Nat) "X" 0 1 0 (by decide)⟩

/-- C9: `Result.ok()` called without an argument (value undefined) builds a
success Result whose `value` getter returns undefined without throwing. -/
theorem ok_without_argument_returns_undefined (α : Type) :
    (Result.ok (none : Option α)).isSuccess = true
    ∧ (Result.ok (none : Option α)).value = Except.ok none :=
  ⟨rfl, rfl⟩

/-- C10: `register` changes only the binding of the registered name — every
other name keeps its previous binding — and `execute` never mutates the
registry: the bus state after any execute equals the state before it, on
both buses. -/
theorem register_frame_and_execute_purity {ι α β : Type}
    (sem : ι → α → HandlerOutcome β) (b : CommandBus ι) (qb : QueryBus ι)
    (n n2 m : String) (h : ι) (x : α) (hne : n2 ≠ n) :
    ((b.register n h).handlers n2 = b.handlers n2
      ∧ (CommandBus.execute sem b m x).2.2 = b)
    ∧ ((qb.register n h).handlers n2 = qb.handlers n2
      ∧ (QueryBus.execute sem qb m x).2.2 = qb) := by
  refine ⟨⟨by simp [CommandBus.register, hne], ?_⟩,
    by simp [QueryBus.register, hne], ?_⟩
  · rcases hb : b.handlers m with _ | hh
    · simp [CommandBus.execute, hb]
    · rcases hsem : sem hh x with r | t <;> simp [CommandBus.execute, hb, hsem]
  · rcases hb : qb.handlers m with _ | hh
    · simp [QueryBus.execute, hb]
    · rcases hsem : sem hh x with r | t <;> simp [QueryBus.execute, hb, hsem]

/-- C10 witness: registering under "A" leaves "B" unbound, and executing
"A" leaves the bus unchanged. -/
theorem register_frame_and_execute_purity_witness :
    ("B" : String) ≠ "A"
    ∧ ((((CommandBus.new Nat).register "A" 3).register "A" 3).handlers "B" =
          ((CommandBus.new Nat).register "A" 3).handlers "B"
      ∧ (CommandBus.execute
          (fun (_ : Nat) (_ : Nat) => HandlerOutcome.returns (Result.ok (some 2)))
          ((CommandBus.new Nat).register "A" 3) "A" 0).2.2 =
          (CommandBus.new Nat).register "A" 3)
    ∧ ((((QueryBus.new Nat).register "A" 3).register "A" 3).handlers "B" =
          ((QueryBus.new Nat).register "A" 3).handlers "B"
      ∧ (QueryBus.execute
          (fun (_ : Nat) (_ : Nat) => HandlerOutcome.returns (Result.ok (some 2)))
          ((QueryBus.new Nat).register "A" 3) "A" 0).2.2 =
          (QueryBus.new Nat).register "A" 3) :=
  ⟨by decide,
    register_frame_and_execute_purity
      (fun (_ : Nat) (_ : Nat) => HandlerOutcome.returns (Result.ok (some 2)))
      ((CommandBus.new Nat).register "A" 3) ((QueryBus.new Nat).register "A" 3)
      "A" "B" "A" 3 0 (by decide)⟩

end AiSearch
